import Mathlib

/-!
Verification of the Energy-Aware-Autoscaling repository core.

Shallow embedding of the monitoring-and-decision loop:
* `run_exp_phase3.py` — the scaling policy (`autoscale`), metric computation
  (`compute_metrics`), replica reads (`get_current_replicas`) and the module
  configuration constants;
* `energy_monitoring.py` — the metric aggregator (`EnergyMonitor.get_service_metrics`).

Python floats are modelled as rationals (`ℚ`), replica counts as integers,
fallible external calls (`subprocess`, HTTP) as `Except`/`Option` inputs, and
the random samples drawn by the simulation as explicit rational parameters.
Python string primitives (`str.strip`, `str.split`, `int(...)`) are modelled
as structural functions over `List Char` so that they are executable.

The file is organised as: all definitions first, then the theorems.
-/

set_option autoImplicit false

namespace PyStr

/-- The characters Python's `str.strip()` removes: space, tab, newline,
carriage return, vertical tab, form feed. -/
def isPythonSpace (c : Char) : Bool :=
  c = ' ' || c = '\t' || c = '\n' || c = '\r' ||
    c = Char.ofNat 11 || c = Char.ofNat 12

/-- Python `s.strip()`: drop whitespace from both ends. -/
def strip (s : List Char) : List Char :=
  ((s.dropWhile isPythonSpace).reverse.dropWhile isPythonSpace).reverse

/-- Python `s.split(sep)` for a one-character separator: the list of
segments between occurrences of `sep` (always nonempty). -/
def splitOnChar (sep : Char) : List Char → List (List Char)
  | [] => [[]]
  | c :: rest =>
    match splitOnChar sep rest with
    | [] => [[c]]
    | h :: t => if c = sep then [] :: h :: t else (c :: h) :: t

/-- The value of a nonempty all-digit string, else `none`. -/
def digitsVal (s : List Char) : Option ℕ :=
  if s = [] ∨ ¬ s.all Char.isDigit then none
  else some (s.foldl (fun acc c => 10 * acc + (c.toNat - 48)) 0)

/-- Python `int(s)` on an already-stripped string: optional sign followed
by digits, raising (here: `none`) otherwise. -/
def parseInt : List Char → Option ℤ
  | '-' :: rest => (digitsVal rest).map (fun n => -(n : ℤ))
  | '+' :: rest => (digitsVal rest).map (fun n => (n : ℤ))
  | s => (digitsVal s).map (fun n => (n : ℤ))

end PyStr

namespace RunExpPhase3

/-! ### Module configuration constants (run_exp_phase3.py lines 7-15)

The thresholds and bounds are module-level values read by `autoscale`. They
are gathered in a configuration record so that the policy can be stated both
at the shipped constants and at arbitrary threshold values (the module
values are plain mutable Python globals). -/

structure ScalerConfig where
  low_threshold : ℚ
  high_threshold : ℚ
  rps_down_threshold : ℚ
  min_replicas : ℤ
  max_replicas : ℤ
  deriving DecidableEq, Repr

/-- The shipped module constants: `LOW_EFFICIENCY_THRESHOLD = 0.25`,
`HIGH_EFFICIENCY_THRESHOLD = 0.35`, `RPS_SCALE_DOWN_THRESHOLD = 2.0`,
`MIN_REPLICAS = 1`, `MAX_REPLICAS = 5`. -/
def defaultScalerConfig : ScalerConfig :=
  { low_threshold := 25/100
    high_threshold := 35/100
    rps_down_threshold := 2
    min_replicas := 1
    max_replicas := 5 }

/-- The static service list `SERVICES = ["s0", ..., "s9"]` (line 8). -/
def SERVICES : List String :=
  ["s0", "s1", "s2", "s3", "s4", "s5", "s6", "s7", "s8", "s9"]

/-! ### The scaling policy (`autoscale`, lines 137-148)

The loop body decides, per service, from `efficiency_rps_per_watt`, `rps`
and the current replica count:

```python
if eff < LOW_EFFICIENCY_THRESHOLD and current_replicas < MAX_REPLICAS:
    new_replicas = current_replicas + 1            # scale up
elif eff > HIGH_EFFICIENCY_THRESHOLD and rps < RPS_SCALE_DOWN_THRESHOLD \
        and current_replicas > MIN_REPLICAS:
    new_replicas = current_replicas - 1            # scale down
else:
    pass                                           # no change
``` -/

inductive Decision where
  | scaleUp
  | scaleDown
  | noChange
  deriving DecidableEq, Repr

def autoscaleDecision (cfg : ScalerConfig) (eff rps : ℚ) (current : ℤ) : Decision :=
  if eff < cfg.low_threshold ∧ current < cfg.max_replicas then
    Decision.scaleUp
  else if cfg.high_threshold < eff ∧ rps < cfg.rps_down_threshold ∧
      cfg.min_replicas < current then
    Decision.scaleDown
  else
    Decision.noChange

/-- The replica count after the decision of `autoscale` is applied
(`current_replicas + 1` on scale up, `current_replicas - 1` on scale down,
unchanged otherwise). -/
def appliedReplicas (cfg : ScalerConfig) (eff rps : ℚ) (current : ℤ) : ℤ :=
  match autoscaleDecision cfg eff rps current with
  | Decision.scaleUp => current + 1
  | Decision.scaleDown => current - 1
  | Decision.noChange => current

/-! ### Metric computation (`compute_metrics`, lines 58-126)

`compute_metrics` loops over `SERVICES` and, per service:
* reads the current replica count via `get_current_replicas` (a `kubectl`
  call whose output is stripped and parsed with `int`; any failure yields
  `None`, which the caller replaces by `1`);
* counts running pods from a second `kubectl` call (`0` on any failure or
  empty stripped output, else the number of output lines);
* when there are active pods and a positive replica count, simulates
  `rps = max(0, 1.5 * replicas + uniform(-0.5, 1.0))` and
  `power = 1.5 + 0.3 * rps`, otherwise keeps the defaults `rps = 0`,
  `power = 1.5`;
* derives `efficiency = rps / power if power > 0 else 0` and
  `epr = power / rps if rps > 0 else 0`;
* on any other exception stores the fixed fallback entry.

External call results and the random draws are inputs of the model. -/

/-- Replica read `get_current_replicas` (lines 36-43): the `kubectl` process result is
either a failure or a decoded output string; the output is stripped and
parsed as an integer, any failure giving `none`. -/
def get_current_replicas (cmdResult : Except String (List Char)) : Option ℤ :=
  match cmdResult with
  | Except.error _ => none
  | Except.ok out => PyStr.parseInt (PyStr.strip out)

/-- Per-service external inputs of one `compute_metrics` iteration:
the two `kubectl` results, the three `random.uniform` draws
(`u ∈ [-0.5, 1.0]`, `lat95u ∈ [0, 50]`, `lat99u ∈ [0, 100]`), and whether
an unhandled exception sends the iteration to the fallback branch. -/
structure ServiceEnv where
  replicaCmd : Except String (List Char)
  podsCmd : Except String (List Char)
  u : ℚ
  lat95u : ℚ
  lat99u : ℚ
  outerFails : Bool
  deriving Repr

/-- Pod count `active_pods` (lines 76-82): number of lines of the stripped pod-list
output, `0` on failure or empty output. -/
def activePods (podsCmd : Except String (List Char)) : ℕ :=
  match podsCmd with
  | Except.error _ => 0
  | Except.ok raw =>
    if PyStr.strip raw = [] then 0
    else (PyStr.splitOnChar '\n' (PyStr.strip raw)).length

/-- The simulated request rate (lines 85-88): with active pods and a
positive replica count, `max(0, current_replicas * 1.5 + uniform(-0.5, 1.0))`,
else the default `0`. -/
def simRps (env : ServiceEnv) : ℚ :=
  if 0 < activePods env.podsCmd ∧
      0 < (get_current_replicas env.replicaCmd).getD 1 then
    max 0 ((((get_current_replicas env.replicaCmd).getD 1 : ℤ) : ℚ) * (3/2)
      + env.u)
  else 0

/-- The simulated power draw (lines 72, 90-92): `1.5 + rps * 0.3` under the
same condition, else the default `1.5`. -/
def simPower (env : ServiceEnv) : ℚ :=
  if 0 < activePods env.podsCmd ∧
      0 < (get_current_replicas env.replicaCmd).getD 1 then
    3/2 + simRps env * (3/10)
  else 3/2

/-- One entry of the map returned by `compute_metrics` (lines 101-110):
all eight snapshot fields. -/
structure ServiceMetrics where
  replicas : ℤ
  power_watts : ℚ
  rps : ℚ
  efficiency_rps_per_watt : ℚ
  epr_joules_per_request : ℚ
  latency_p95_ms : ℚ
  latency_p99_ms : ℚ
  total_energy_joules : ℚ
  deriving DecidableEq, Repr

/-- The fixed fallback entry stored when a service's iteration raises
(lines 115-124). -/
def fallbackMetrics : ServiceMetrics :=
  { replicas := 1
    power_watts := 3/2
    rps := 0
    efficiency_rps_per_watt := 0
    epr_joules_per_request := 0
    latency_p95_ms := 100
    latency_p99_ms := 150
    total_energy_joules := 90 }

/-- The body of one `compute_metrics` iteration (lines 62-124). -/
def computeServiceMetrics (env : ServiceEnv) : ServiceMetrics :=
  if env.outerFails then fallbackMetrics
  else
    { replicas := (get_current_replicas env.replicaCmd).getD 1
      power_watts := simPower env
      rps := simRps env
      efficiency_rps_per_watt :=
        if 0 < simPower env then simRps env / simPower env else 0
      epr_joules_per_request :=
        if 0 < simRps env then simPower env / simRps env else 0
      latency_p95_ms := 100 + env.lat95u
      latency_p99_ms := 150 + env.lat99u
      total_energy_joules := simPower env * 60 }

/-- The map built by `compute_metrics` (lines 58-126): one entry per configured service, in
order. -/
def compute_metrics (envs : String → ServiceEnv) :
    List (String × ServiceMetrics) :=
  SERVICES.map (fun s => (s, computeServiceMetrics (envs s)))

/-- A concrete environment used by witnesses: the replica read fails (so
the default count 1 is assumed), one pod is running, all random draws are
zero and no exception occurs. -/
def livePodEnv : ServiceEnv :=
  { replicaCmd := Except.error "e"
    podsCmd := Except.ok ['p']
    u := 0
    lat95u := 0
    lat99u := 0
    outerFails := false }

end RunExpPhase3

namespace EnergyMonitoring

/-! ### The metric aggregator (`EnergyMonitor.get_service_metrics`,
energy_monitoring.py lines 64-120)

The method issues five Prometheus queries — replica counts, p95 latency,
p99 latency, power, request rate — and merges their result sets into one
dict keyed by service name:

```python
if replica_data:
    for metric in replica_data['data']['result']:
        service = metric['metric']['deployment']
        if service not in metrics:
            metrics[service] = {}
        metrics[service]['replicas'] = int(metric['value'][1])
if p95_data:
    for metric in p95_data['data']['result']:
        service = metric['metric'].get('kubernetes_service', '')
        if service and service in metrics:
            metrics[service]['latency_p95_ms'] = float(metric['value'][1])
# p99: same shape
if power_data:
    for metric in power_data['data']['result']:
        pod_name = metric['metric'].get('pod', '')
        service = pod_name.split('-')[0] if pod_name else ''
        if service and service in metrics:
            metrics[service]['power_watts'] = float(metric['value'][1])
# rps: same shape as p95
```

A query result is a list of (label, value) samples; a failed query is
`None` (skipped by the `if data:` guards). Label strings are modelled as
`List Char`; the dict as an insertion-ordered association list; a dict
entry as a record of optional fields (a missing key is `none`). -/

/-- One entry of the metrics dict: the five per-service fields, each
`none` while its key has not been assigned. -/
structure SvcEntry where
  replicas : Option ℤ
  latency_p95_ms : Option ℚ
  latency_p99_ms : Option ℚ
  power_watts : Option ℚ
  rps : Option ℚ
  deriving DecidableEq, Repr

/-- A fresh `metrics[service] = {}` entry. -/
def emptyEntry : SvcEntry :=
  { replicas := none
    latency_p95_ms := none
    latency_p99_ms := none
    power_watts := none
    rps := none }

/-- Update the entry at key `s` in place (first occurrence); no effect when
the key is absent — this is exactly the `service in metrics` guard. -/
def updateEntry (f : SvcEntry → SvcEntry) (s : List Char) :
    List (List Char × SvcEntry) → List (List Char × SvcEntry)
  | [] => []
  | (k, e) :: rest =>
    if k = s then (k, f e) :: rest
    else (k, e) :: updateEntry f s rest

/-- Python dict lookup (first occurrence; keys are unique in a dict). -/
def findEntry (s : List Char) :
    List (List Char × SvcEntry) → Option SvcEntry
  | [] => none
  | (k, e) :: rest => if k = s then some e else findEntry s rest

/-- Process one replica sample (lines 89-93): insert the deployment label
as a fresh key when absent, then assign its `replicas` field (an upsert). -/
def applyReplicaSample (m : List (List Char × SvcEntry))
    (sample : List Char × ℤ) : List (List Char × SvcEntry) :=
  if sample.1 ∈ m.map Prod.fst then
    updateEntry (fun e => { e with replicas := some sample.2 }) sample.1 m
  else m ++ [(sample.1, { emptyEntry with replicas := some sample.2 })]

/-- Process one directly-labeled sample (the p95, p99 and rps loops): the
label defaults to the empty string when missing, and the assignment only
happens for a nonempty label naming an existing key. -/
def applyLabeledSample (f : ℚ → SvcEntry → SvcEntry)
    (m : List (List Char × SvcEntry)) (sample : List Char × ℚ) :
    List (List Char × SvcEntry) :=
  if sample.1 ≠ [] then updateEntry (f sample.2) sample.1 m else m

/-- The service name derived from a power sample's pod label (line 110):
`pod_name.split('-')[0] if pod_name else ''`. -/
def powerServiceName (pod : List Char) : List Char :=
  if pod ≠ [] then (PyStr.splitOnChar '-' pod).headD [] else []

/-- Process one power sample (lines 108-112): derive the service name from
the pod label and assign `power_watts` when it names an existing key. -/
def applyPowerSample (m : List (List Char × SvcEntry))
    (sample : List Char × ℚ) : List (List Char × SvcEntry) :=
  if powerServiceName sample.1 ≠ [] then
    updateEntry (fun e => { e with power_watts := some sample.2 })
      (powerServiceName sample.1) m
  else m

/-- The merge `get_service_metrics` (lines 64-120): fold the five (possibly failed)
query result sets over the empty dict, in source order. -/
def get_service_metrics
    (replicaData : Option (List (List Char × ℤ)))
    (p95Data p99Data : Option (List (List Char × ℚ)))
    (powerData : Option (List (List Char × ℚ)))
    (rpsData : Option (List (List Char × ℚ))) :
    List (List Char × SvcEntry) :=
  (rpsData.getD []).foldl
    (applyLabeledSample (fun v e => { e with rps := some v }))
    ((powerData.getD []).foldl applyPowerSample
      ((p99Data.getD []).foldl
        (applyLabeledSample (fun v e => { e with latency_p99_ms := some v }))
        ((p95Data.getD []).foldl
          (applyLabeledSample (fun v e => { e with latency_p95_ms := some v }))
          ((replicaData.getD []).foldl applyReplicaSample []))))

/-- The value of the last power sample whose derived service name is `s`,
starting from a prior value `acc` (overwrite semantics of repeated dict
assignment). -/
def lastPowerFrom (pwd : List (List Char × ℚ)) (s : List Char)
    (acc : Option ℚ) : Option ℚ :=
  pwd.foldl
    (fun a p => if powerServiceName p.1 = s ∧ s ≠ [] then some p.2 else a) acc

/-- The power value `get_service_metrics` ends up storing for service `s`:
the last matching sample, or nothing when no sample matches. -/
def lastPowerVal (pwd : List (List Char × ℚ)) (s : List Char) : Option ℚ :=
  lastPowerFrom pwd s none

/-- The generic overwrite accumulator for a directly-labeled signal fold,
acting on one entry. -/
def labeledAccum (f : ℚ → SvcEntry → SvcEntry)
    (l : List (List Char × ℚ)) (s : List Char) (e : SvcEntry) : SvcEntry :=
  l.foldl (fun e' p => if p.1 = s ∧ s ≠ [] then f p.2 e' else e') e

end EnergyMonitoring

namespace RunExpPhase3

/-! ### Theorems about the scaling policy -/

/-- C1: if the current replica count lies in `[min_replicas, max_replicas]`,
then so does the count after the applied decision; at
`current = max_replicas` with `eff < low_threshold` the decision is
`noChange`, and at `current = min_replicas` with `eff > high_threshold` and
`rps < rps_down_threshold` the decision is `noChange`. The boundary parts
use `low_threshold ≤ high_threshold`, which holds for the shipped constants
(0.25 ≤ 0.35). -/
theorem autoscale_replicas_bounded (cfg : ScalerConfig) (eff rps : ℚ) (current : ℤ)
    (hth : cfg.low_threshold ≤ cfg.high_threshold)
    (hlo : cfg.min_replicas ≤ current) (hhi : current ≤ cfg.max_replicas) :
    (cfg.min_replicas ≤ appliedReplicas cfg eff rps current ∧
      appliedReplicas cfg eff rps current ≤ cfg.max_replicas) ∧
    (current = cfg.max_replicas → eff < cfg.low_threshold →
      autoscaleDecision cfg eff rps current = Decision.noChange) ∧
    (current = cfg.min_replicas → cfg.high_threshold < eff →
      rps < cfg.rps_down_threshold →
      autoscaleDecision cfg eff rps current = Decision.noChange) := by
  unfold appliedReplicas autoscaleDecision
  refine ⟨?_, ?_, ?_⟩
  · split_ifs with h1 h2 <;> simp only [] <;> constructor <;> omega
  · intro hcur heff
    split_ifs with h1 h2
    · exact absurd h1.2 (by omega)
    · exact absurd (lt_of_le_of_lt hth h2.1) (not_lt_of_lt heff)
    · rfl
  · intro hcur heff hrps
    split_ifs with h1 h2
    · exact absurd h1.1 (not_lt_of_lt (lt_of_le_of_lt hth heff))
    · exact absurd h2.2.2 (by omega)
    · rfl

/-- Witness for C1 at the shipped configuration with `eff = 1/10`,
`rps = 1`, `current = 2`. -/
theorem autoscale_replicas_bounded_witness :
    (defaultScalerConfig.min_replicas ≤
        appliedReplicas defaultScalerConfig (1/10) 1 2 ∧
      appliedReplicas defaultScalerConfig (1/10) 1 2 ≤
        defaultScalerConfig.max_replicas) ∧
    ((2 : ℤ) = defaultScalerConfig.max_replicas →
      (1/10 : ℚ) < defaultScalerConfig.low_threshold →
      autoscaleDecision defaultScalerConfig (1/10) 1 2 = Decision.noChange) ∧
    ((2 : ℤ) = defaultScalerConfig.min_replicas →
      defaultScalerConfig.high_threshold < (1/10 : ℚ) →
      (1 : ℚ) < defaultScalerConfig.rps_down_threshold →
      autoscaleDecision defaultScalerConfig (1/10) 1 2 = Decision.noChange) :=
  autoscale_replicas_bounded defaultScalerConfig (1/10) 1 2
    (by norm_num [defaultScalerConfig]) (by norm_num [defaultScalerConfig])
    (by norm_num [defaultScalerConfig])

/-- C2: whenever `eff < low_threshold` and `current < max_replicas`, the
policy scales up to exactly `current + 1`. -/
theorem autoscale_scale_up (cfg : ScalerConfig) (eff rps : ℚ) (current : ℤ)
    (h1 : eff < cfg.low_threshold) (h2 : current < cfg.max_replicas) :
    autoscaleDecision cfg eff rps current = Decision.scaleUp ∧
    appliedReplicas cfg eff rps current = current + 1 := by
  unfold appliedReplicas autoscaleDecision
  rw [if_pos ⟨h1, h2⟩]
  exact ⟨rfl, rfl⟩

/-- Witness for C2: `eff = 0.10 < 0.25`, `current = 2 < 5` yields scale up
to 3 replicas. -/
theorem autoscale_scale_up_witness :
    autoscaleDecision defaultScalerConfig (10/100) 1 2 = Decision.scaleUp ∧
    appliedReplicas defaultScalerConfig (10/100) 1 2 = 2 + 1 :=
  autoscale_scale_up defaultScalerConfig (10/100) 1 2
    (by norm_num [defaultScalerConfig]) (by norm_num [defaultScalerConfig])

/-- C3: when the scale-up rule does not fire and
`eff > high_threshold ∧ rps < rps_down_threshold ∧ current > min_replicas`
holds, the policy scales down to exactly `current - 1`; and when the
conditions of both rules hold simultaneously, scale up wins (rule order). -/
theorem autoscale_scale_down_and_priority (cfg : ScalerConfig) (eff rps : ℚ)
    (current : ℤ) :
    (¬ (eff < cfg.low_threshold ∧ current < cfg.max_replicas) →
      cfg.high_threshold < eff → rps < cfg.rps_down_threshold →
      cfg.min_replicas < current →
      autoscaleDecision cfg eff rps current = Decision.scaleDown ∧
      appliedReplicas cfg eff rps current = current - 1) ∧
    ((eff < cfg.low_threshold ∧ current < cfg.max_replicas) →
      cfg.high_threshold < eff → rps < cfg.rps_down_threshold →
      cfg.min_replicas < current →
      autoscaleDecision cfg eff rps current = Decision.scaleUp) := by
  unfold appliedReplicas autoscaleDecision
  constructor
  · intro hnot h1 h2 h3
    rw [if_neg hnot, if_pos ⟨h1, h2, h3⟩]
    exact ⟨rfl, rfl⟩
  · intro hup _ _ _
    rw [if_pos hup]

/-- Witness for C3. Scale-down part at the shipped constants with
`eff = 0.40`, `rps = 1.0`, `current = 3` (target 2); priority part at a
configuration with `low_threshold = 0.5 > high_threshold = 0.2`, where
`eff = 0.3` satisfies both rules and scale up wins. -/
theorem autoscale_scale_down_and_priority_witness :
    (autoscaleDecision defaultScalerConfig (40/100) 1 3 = Decision.scaleDown ∧
      appliedReplicas defaultScalerConfig (40/100) 1 3 = 3 - 1) ∧
    autoscaleDecision ⟨1/2, 1/5, 2, 1, 5⟩ (3/10) 1 3 = Decision.scaleUp :=
  ⟨(autoscale_scale_down_and_priority defaultScalerConfig (40/100) 1 3).1
      (by norm_num [defaultScalerConfig]) (by norm_num [defaultScalerConfig])
      (by norm_num [defaultScalerConfig]) (by norm_num [defaultScalerConfig]),
    (autoscale_scale_down_and_priority ⟨1/2, 1/5, 2, 1, 5⟩ (3/10) 1 3).2
      (by norm_num) (by norm_num) (by norm_num) (by norm_num)⟩

/-! ### Theorems about the metric computation -/

/-- The simulated request rate is never negative. -/
theorem simRps_nonneg (env : ServiceEnv) : 0 ≤ simRps env := by
  unfold simRps
  split_ifs with h
  · exact le_max_left 0 _
  · exact le_refl 0

/-- The simulated power draw is at least `1.5`. -/
theorem simPower_ge (env : ServiceEnv) : 3/2 ≤ simPower env := by
  unfold simPower
  split_ifs with h
  · nlinarith [simRps_nonneg env]
  · exact le_refl _

/-- The power field of every computed entry is at least `1.5`: the
simulated value is `1.5` or `1.5 + 0.3 * rps` with `rps ≥ 0`, and the
fallback entry stores `1.5`. -/
theorem power_watts_ge (env : ServiceEnv) :
    3/2 ≤ (computeServiceMetrics env).power_watts := by
  unfold computeServiceMetrics
  by_cases hf : env.outerFails = true
  · rw [if_pos hf]
    norm_num [fallbackMetrics]
  · rw [if_neg hf]
    exact simPower_ge env

/-- The derived EPR field is exactly the code's formula
`power / rps if rps > 0 else 0`. -/
theorem epr_eq (env : ServiceEnv) :
    (computeServiceMetrics env).epr_joules_per_request =
      if 0 < (computeServiceMetrics env).rps then
        (computeServiceMetrics env).power_watts / (computeServiceMetrics env).rps
      else 0 := by
  unfold computeServiceMetrics
  by_cases hf : env.outerFails = true
  · rw [if_pos hf]
    simp [fallbackMetrics]
  · rw [if_neg hf]

/-- The derived efficiency field is exactly the code's formula
`rps / power if power > 0 else 0`. -/
theorem efficiency_eq (env : ServiceEnv) :
    (computeServiceMetrics env).efficiency_rps_per_watt =
      if 0 < (computeServiceMetrics env).power_watts then
        (computeServiceMetrics env).rps / (computeServiceMetrics env).power_watts
      else 0 := by
  unfold computeServiceMetrics
  by_cases hf : env.outerFails = true
  · rw [if_pos hf]
    simp [fallbackMetrics]
  · rw [if_neg hf]

/-- C4: every snapshot built by `compute_metrics` satisfies the two
zero-guard formulas of the spec: `epr = power / rps` when `rps > 0` and
`power > 0`, else `0` (in particular `epr = 0` whenever `rps = 0`), and
`efficiency = rps / power` when `power > 0`, else `0`. The spec's extra
`power > 0` condition in the EPR guard agrees with the code's `rps > 0`
guard because every computed snapshot has `power ≥ 1.5 > 0`. -/
theorem derived_metrics_zero_guards (env : ServiceEnv) :
    ((computeServiceMetrics env).epr_joules_per_request =
      if 0 < (computeServiceMetrics env).rps ∧
          0 < (computeServiceMetrics env).power_watts then
        (computeServiceMetrics env).power_watts / (computeServiceMetrics env).rps
      else 0) ∧
    ((computeServiceMetrics env).efficiency_rps_per_watt =
      if 0 < (computeServiceMetrics env).power_watts then
        (computeServiceMetrics env).rps / (computeServiceMetrics env).power_watts
      else 0) ∧
    ((computeServiceMetrics env).rps = 0 →
      (computeServiceMetrics env).epr_joules_per_request = 0) := by
  have hp : 0 < (computeServiceMetrics env).power_watts :=
    lt_of_lt_of_le (by norm_num) (power_watts_ge env)
  refine ⟨?_, efficiency_eq env, ?_⟩
  · rw [epr_eq env]
    by_cases hr : 0 < (computeServiceMetrics env).rps
    · rw [if_pos hr, if_pos ⟨hr, hp⟩]
    · rw [if_neg hr, if_neg (fun h => hr h.1)]
  · intro h
    rw [epr_eq env, h]
    norm_num

/-- Witness for C4 at the environment where every external call fails (an
entry with `rps = 0`, `power = 3/2`, `epr = 0`, `efficiency = 0`). -/
theorem derived_metrics_zero_guards_witness :
    ((computeServiceMetrics ⟨Except.error "e", Except.error "e", 0, 0, 0,
        false⟩).epr_joules_per_request =
      if 0 < (computeServiceMetrics ⟨Except.error "e", Except.error "e", 0, 0,
            0, false⟩).rps ∧
          0 < (computeServiceMetrics ⟨Except.error "e", Except.error "e", 0, 0,
            0, false⟩).power_watts then
        (computeServiceMetrics ⟨Except.error "e", Except.error "e", 0, 0, 0,
            false⟩).power_watts /
          (computeServiceMetrics ⟨Except.error "e", Except.error "e", 0, 0, 0,
            false⟩).rps
      else 0) ∧
    ((computeServiceMetrics ⟨Except.error "e", Except.error "e", 0, 0, 0,
        false⟩).efficiency_rps_per_watt =
      if 0 < (computeServiceMetrics ⟨Except.error "e", Except.error "e", 0, 0,
          0, false⟩).power_watts then
        (computeServiceMetrics ⟨Except.error "e", Except.error "e", 0, 0, 0,
            false⟩).rps /
          (computeServiceMetrics ⟨Except.error "e", Except.error "e", 0, 0, 0,
            false⟩).power_watts
      else 0) ∧
    ((computeServiceMetrics ⟨Except.error "e", Except.error "e", 0, 0, 0,
        false⟩).rps = 0 →
      (computeServiceMetrics ⟨Except.error "e", Except.error "e", 0, 0, 0,
        false⟩).epr_joules_per_request = 0) :=
  derived_metrics_zero_guards ⟨Except.error "e", Except.error "e", 0, 0, 0,
    false⟩

/-- In the witness environment the default replica count 1 is assumed and
one pod is counted, so the simulated rps is `max 0 (1.5) = 3/2`. -/
theorem simRps_livePodEnv : simRps livePodEnv = 3/2 := by
  unfold simRps
  rw [if_pos]
  · rw [max_eq_right]
    · norm_num [livePodEnv, get_current_replicas]
    · norm_num [livePodEnv, get_current_replicas]
  · constructor
    · decide
    · decide

/-- In the witness environment the simulated power draw is
`1.5 + 1.5 * 0.3 = 39/20`. -/
theorem simPower_livePodEnv : simPower livePodEnv = 39/20 := by
  unfold simPower
  rw [if_pos]
  · rw [simRps_livePodEnv]
    norm_num
  · constructor
    · decide
    · decide

/-- C9: for every computed snapshot with positive power and positive rps,
`epr * rps = power` exactly over the rationals. -/
theorem epr_times_rps (env : ServiceEnv)
    (_hp : 0 < (computeServiceMetrics env).power_watts)
    (hr : 0 < (computeServiceMetrics env).rps) :
    (computeServiceMetrics env).epr_joules_per_request *
      (computeServiceMetrics env).rps =
      (computeServiceMetrics env).power_watts := by
  rw [epr_eq env, if_pos hr]
  exact div_mul_cancel₀ _ (ne_of_gt hr)

/-- Witness for C9: in `livePodEnv` the snapshot has `rps = 3/2 > 0` and
`power = 39/20 > 0`, and `epr * rps = power`. -/
theorem epr_times_rps_witness :
    (0 : ℚ) < (computeServiceMetrics livePodEnv).power_watts ∧
    (0 : ℚ) < (computeServiceMetrics livePodEnv).rps ∧
    (computeServiceMetrics livePodEnv).epr_joules_per_request *
      (computeServiceMetrics livePodEnv).rps =
      (computeServiceMetrics livePodEnv).power_watts := by
  have hrpsv : (computeServiceMetrics livePodEnv).rps = 3/2 := by
    unfold computeServiceMetrics
    rw [if_neg (by decide)]
    exact simRps_livePodEnv
  have hp : (0 : ℚ) < (computeServiceMetrics livePodEnv).power_watts :=
    lt_of_lt_of_le (by norm_num) (power_watts_ge livePodEnv)
  have hr : (0 : ℚ) < (computeServiceMetrics livePodEnv).rps := by
    rw [hrpsv]; norm_num
  exact ⟨hp, hr, epr_times_rps livePodEnv hp hr⟩

/-- C10: `compute_metrics` always returns one entry per configured service,
in order (`s0`–`s9`), whatever the external call results are, and every
entry's `power_watts` is at least `1.5`, hence positive — so the guard of
`rps / power` always passes with a nonzero divisor, and `power / rps` is
only computed under its `rps > 0` guard. -/
theorem compute_metrics_total (envs : String → ServiceEnv) :
    (compute_metrics envs).map Prod.fst = SERVICES ∧
    ∀ p ∈ compute_metrics envs,
      3/2 ≤ p.2.power_watts ∧ 0 < p.2.power_watts := by
  constructor
  · show (SERVICES.map (fun s => (s, computeServiceMetrics (envs s)))).map
        Prod.fst = SERVICES
    rw [List.map_map]
    exact List.map_id SERVICES
  · intro p hp
    rcases List.mem_map.1 hp with ⟨s, _, rfl⟩
    exact ⟨power_watts_ge _,
      lt_of_lt_of_le (by norm_num) (power_watts_ge _)⟩

/-- Witness for C10 at the environment where every external call fails. -/
theorem compute_metrics_total_witness :
    (compute_metrics (fun _ =>
        ⟨Except.error "e", Except.error "e", 0, 0, 0, false⟩)).map Prod.fst =
      SERVICES ∧
    ∀ p ∈ compute_metrics (fun _ =>
        ⟨Except.error "e", Except.error "e", 0, 0, 0, false⟩),
      3/2 ≤ p.2.power_watts ∧ 0 < p.2.power_watts :=
  compute_metrics_total (fun _ => ⟨Except.error "e", Except.error "e", 0, 0, 0,
    false⟩)

/-- C7: when the replica read fails (`get_current_replicas` gives `none`),
the computed entry for that service carries the default count `1`; the
service still gets an entry in the tick's map (the tick is not aborted),
and a successful read stores the parsed count unchanged. The snapshot map
is rebuilt from `envs` each call, so the substitution lasts only for the
tick it occurs in. -/
theorem replica_read_failure_defaults_to_one (envs : String → ServiceEnv)
    (s : String) (hmem : s ∈ SERVICES) (hok : (envs s).outerFails = false) :
    (s, computeServiceMetrics (envs s)) ∈ compute_metrics envs ∧
    (get_current_replicas (envs s).replicaCmd = none →
      (computeServiceMetrics (envs s)).replicas = 1) ∧
    (∀ n : ℤ, get_current_replicas (envs s).replicaCmd = some n →
      (computeServiceMetrics (envs s)).replicas = n) := by
  refine ⟨List.mem_map.2 ⟨s, hmem, rfl⟩, ?_, ?_⟩
  · intro h
    simp [computeServiceMetrics, hok, h]
  · intro n h
    simp [computeServiceMetrics, hok, h]

/-- Witness for C7: with the `kubectl` replica read failing for every
service, `s0` is still evaluated and assumes one replica. -/
theorem replica_read_failure_defaults_to_one_witness :
    (("s0", computeServiceMetrics ((fun _ =>
        (⟨Except.error "boom", Except.error "x", 0, 0, 0, false⟩ :
          ServiceEnv)) "s0")) ∈ compute_metrics (fun _ =>
        ⟨Except.error "boom", Except.error "x", 0, 0, 0, false⟩)) ∧
    (get_current_replicas ((fun _ =>
        (⟨Except.error "boom", Except.error "x", 0, 0, 0, false⟩ :
          ServiceEnv)) "s0").replicaCmd = none →
      (computeServiceMetrics ((fun _ =>
        (⟨Except.error "boom", Except.error "x", 0, 0, 0, false⟩ :
          ServiceEnv)) "s0")).replicas = 1) ∧
    (∀ n : ℤ, get_current_replicas ((fun _ =>
        (⟨Except.error "boom", Except.error "x", 0, 0, 0, false⟩ :
          ServiceEnv)) "s0").replicaCmd = some n →
      (computeServiceMetrics ((fun _ =>
        (⟨Except.error "boom", Except.error "x", 0, 0, 0, false⟩ :
          ServiceEnv)) "s0")).replicas = n) :=
  replica_read_failure_defaults_to_one
    (fun _ => ⟨Except.error "boom", Except.error "x", 0, 0, 0, false⟩) "s0"
    (by decide) rfl

end RunExpPhase3

namespace EnergyMonitoring

/-! ### Theorems about the metric aggregator -/

/-- Updating an entry in place never changes the key list. -/
theorem keys_updateEntry (f : SvcEntry → SvcEntry) (s : List Char) :
    ∀ m : List (List Char × SvcEntry),
      (updateEntry f s m).map Prod.fst = m.map Prod.fst := by
  intro m
  induction m with
  | nil => rfl
  | cons p rest ih =>
    unfold updateEntry
    by_cases h : p.1 = s
    · rw [if_pos h]
      simp
    · rw [if_neg h]
      simp [ih]

/-- A directly-labeled sample never adds or removes a key. -/
theorem keys_applyLabeledSample (f : ℚ → SvcEntry → SvcEntry)
    (m : List (List Char × SvcEntry)) (a : List Char × ℚ) :
    (applyLabeledSample f m a).map Prod.fst = m.map Prod.fst := by
  unfold applyLabeledSample
  split_ifs with h
  · exact keys_updateEntry (f a.2) a.1 m
  · rfl

/-- A power sample never adds or removes a key. -/
theorem keys_applyPowerSample (m : List (List Char × SvcEntry))
    (a : List Char × ℚ) :
    (applyPowerSample m a).map Prod.fst = m.map Prod.fst := by
  unfold applyPowerSample
  split_ifs with h
  · exact keys_updateEntry _ _ m
  · rfl

/-- A fold whose step preserves the key list preserves the key list. -/
theorem keys_foldl {α : Type}
    (step : List (List Char × SvcEntry) → α → List (List Char × SvcEntry))
    (hstep : ∀ m a, (step m a).map Prod.fst = m.map Prod.fst) :
    ∀ (l : List α) (m : List (List Char × SvcEntry)),
      (l.foldl step m).map Prod.fst = m.map Prod.fst := by
  intro l
  induction l with
  | nil => intro m; rfl
  | cons a l ih => intro m; rw [List.foldl_cons, ih, hstep]

/-- One replica sample adds exactly its own deployment label as a key. -/
theorem mem_keys_applyReplicaSample (m : List (List Char × SvcEntry))
    (a : List Char × ℤ) (s : List Char) :
    s ∈ (applyReplicaSample m a).map Prod.fst ↔
      s ∈ m.map Prod.fst ∨ s = a.1 := by
  unfold applyReplicaSample
  by_cases h : a.1 ∈ m.map Prod.fst
  · rw [if_pos h, keys_updateEntry]
    constructor
    · exact Or.inl
    · rintro (h1 | rfl)
      · exact h1
      · exact h
  · rw [if_neg h]
    simp only [List.map_append, List.map_cons, List.map_nil, List.mem_append,
      List.mem_cons, List.not_mem_nil, or_false]

/-- The replica fold's keys are the starting keys plus all deployment
labels of the replica result set. -/
theorem mem_keys_replicaFold (rd : List (List Char × ℤ)) :
    ∀ (m : List (List Char × SvcEntry)) (s : List Char),
      (s ∈ (rd.foldl applyReplicaSample m).map Prod.fst ↔
        s ∈ m.map Prod.fst ∨ s ∈ rd.map Prod.fst) := by
  induction rd with
  | nil =>
    intro m s
    simp only [List.foldl_nil, List.map_nil, List.not_mem_nil, or_false]
  | cons a rd ih =>
    intro m s
    rw [List.foldl_cons, ih, mem_keys_applyReplicaSample]
    simp only [List.map_cons, List.mem_cons]
    tauto

/-- Entry-level predicates survive in-place updates whose function
preserves them. -/
theorem entries_updateEntry (P : SvcEntry → Prop) (f : SvcEntry → SvcEntry)
    (s : List Char) (hf : ∀ e, P e → P (f e)) :
    ∀ m : List (List Char × SvcEntry), (∀ p ∈ m, P p.2) →
      ∀ p ∈ updateEntry f s m, P p.2 := by
  intro m
  induction m with
  | nil => intro _ p hp; cases hp
  | cons q rest ih =>
    intro hm p hp
    unfold updateEntry at hp
    by_cases h : q.1 = s
    · rw [if_pos h] at hp
      rcases List.mem_cons.1 hp with h1 | h2
      · rw [h1]
        exact hf q.2 (hm q (List.mem_cons_self q rest))
      · exact hm p (List.mem_cons_of_mem q h2)
    · rw [if_neg h] at hp
      rcases List.mem_cons.1 hp with h1 | h2
      · rw [h1]
        exact hm q (List.mem_cons_self q rest)
      · exact ih (fun r hr => hm r (List.mem_cons_of_mem q hr)) p h2

/-- Every entry produced by the replica fold alone has all four signal
fields still absent: the replica loop assigns only `replicas`. -/
theorem replicaFold_signals_none (rd : List (List Char × ℤ)) :
    ∀ m : List (List Char × SvcEntry),
      (∀ p ∈ m, p.2.latency_p95_ms = none ∧ p.2.latency_p99_ms = none ∧
        p.2.power_watts = none ∧ p.2.rps = none) →
      ∀ p ∈ rd.foldl applyReplicaSample m,
        p.2.latency_p95_ms = none ∧ p.2.latency_p99_ms = none ∧
          p.2.power_watts = none ∧ p.2.rps = none := by
  induction rd with
  | nil => intro m hm; exact hm
  | cons a rd ih =>
    intro m hm
    rw [List.foldl_cons]
    apply ih
    intro p hp
    unfold applyReplicaSample at hp
    split_ifs at hp with h
    · exact entries_updateEntry
        (fun e => e.latency_p95_ms = none ∧ e.latency_p99_ms = none ∧
          e.power_watts = none ∧ e.rps = none)
        (fun e => { e with replicas := some a.2 }) a.1
        (fun e he => he) m hm p hp
    · rcases List.mem_append.1 hp with h1 | h2
      · exact hm p h1
      · rcases List.mem_singleton.1 h2 with rfl
        simp [emptyEntry]

/-- A successful `findEntry` exhibits a member of the association list. -/
theorem findEntry_some_mem (s : List Char) :
    ∀ (m : List (List Char × SvcEntry)) (e : SvcEntry),
      findEntry s m = some e → (s, e) ∈ m := by
  intro m
  induction m with
  | nil => intro e h; cases h
  | cons q rest ih =>
    intro e h
    unfold findEntry at h
    by_cases hq : q.1 = s
    · rw [if_pos hq] at h
      rcases Option.some_inj.1 h with rfl
      rcases hq with rfl
      exact List.mem_cons_self _ _
    · rw [if_neg hq] at h
      exact List.mem_cons_of_mem q (ih e h)

/-- C5 counterexample: a service present only in the request-rate result
set (here `s1` with `rps = 3`) is not included in the merged map at all —
the merge is keyed by the replica result, not by the union of all
sources, and the power/rps/latency loops only update keys that already
exist. The claimed union semantics with zero-defaults would include `s1`
with `rps = 3` and the other signals `0`. -/
theorem aggregator_union_counterexample :
    get_service_metrics (some []) none none none
        (some [((['s', '1'] : List Char), (3 : ℚ))]) = [] ∧
    ((['s', '1'] : List Char), (3 : ℚ)) ∈
      [((['s', '1'] : List Char), (3 : ℚ))] :=
  ⟨rfl, List.mem_singleton.2 rfl⟩

/-- C5 amended: a service is included in the merged map exactly when it
appears in the replica query result set (the other four loops update
existing keys only and none of them inserts); and when only the replica
query succeeds, every included service's entry has all four signal fields
absent (`none`) rather than `0` — downstream consumers supply the `0`
default at lookup time. -/
theorem aggregator_replica_keyed
    (replicaData : Option (List (List Char × ℤ)))
    (p95Data p99Data powerData rpsData : Option (List (List Char × ℚ)))
    (s : List Char) :
    (s ∈ (get_service_metrics replicaData p95Data p99Data powerData
        rpsData).map Prod.fst ↔
      s ∈ (replicaData.getD []).map Prod.fst) ∧
    (∀ e : SvcEntry,
      findEntry s (get_service_metrics replicaData none none none none) =
        some e →
      e.latency_p95_ms = none ∧ e.latency_p99_ms = none ∧
        e.power_watts = none ∧ e.rps = none) := by
  constructor
  · unfold get_service_metrics
    rw [keys_foldl _ (keys_applyLabeledSample _),
      keys_foldl _ keys_applyPowerSample,
      keys_foldl _ (keys_applyLabeledSample _),
      keys_foldl _ (keys_applyLabeledSample _),
      mem_keys_replicaFold]
    simp
  · intro e he
    have hmem : (s, e) ∈ (replicaData.getD []).foldl applyReplicaSample [] :=
      findEntry_some_mem s _ e he
    exact replicaFold_signals_none (replicaData.getD []) []
      (fun p hp => absurd hp (List.not_mem_nil p)) (s, e) hmem

/-- Witness for C5 (amended): with a replica result for `s1` only and an
rps result for `s7`, the map contains exactly the replica-keyed service. -/
theorem aggregator_replica_keyed_witness :
    ((['s', '1'] : List Char) ∈ (get_service_metrics
        (some [((['s', '1'] : List Char), (2 : ℤ))]) none none none
        (some [((['s', '7'] : List Char), (3 : ℚ))])).map Prod.fst ↔
      (['s', '1'] : List Char) ∈
        (((some [((['s', '1'] : List Char), (2 : ℤ))]).getD
          ([] : List (List Char × ℤ))).map Prod.fst)) ∧
    (∀ e : SvcEntry,
      findEntry ['s', '1'] (get_service_metrics
          (some [((['s', '1'] : List Char), (2 : ℤ))]) none none none
          none) = some e →
      e.latency_p95_ms = none ∧ e.latency_p99_ms = none ∧
        e.power_watts = none ∧ e.rps = none) :=
  aggregator_replica_keyed (some [(['s', '1'], 2)]) none none none
    (some [(['s', '7'], 3)]) ['s', '1']

/-- Updating at key `s` maps the looked-up entry at `s` through the update
function. -/
theorem findEntry_updateEntry_self (f : SvcEntry → SvcEntry) (s : List Char) :
    ∀ m : List (List Char × SvcEntry),
      findEntry s (updateEntry f s m) = (findEntry s m).map f := by
  intro m
  induction m with
  | nil => rfl
  | cons q rest ih =>
    unfold updateEntry
    by_cases h : q.1 = s
    · rw [if_pos h]
      unfold findEntry
      rw [if_pos h]
      rw [if_pos h]
      rfl
    · rw [if_neg h]
      unfold findEntry
      rw [if_neg h]
      rw [if_neg h]
      exact ih

/-- Updating at one key leaves lookups at any other key unchanged. -/
theorem findEntry_updateEntry_ne (f : SvcEntry → SvcEntry) (s t : List Char)
    (hst : s ≠ t) :
    ∀ m : List (List Char × SvcEntry),
      findEntry t (updateEntry f s m) = findEntry t m := by
  intro m
  induction m with
  | nil => rfl
  | cons q rest ih =>
    unfold updateEntry
    by_cases h : q.1 = s
    · rw [if_pos h]
      unfold findEntry
      rw [if_neg (h ▸ hst)]
      rw [if_neg (h ▸ hst)]
    · rw [if_neg h]
      unfold findEntry
      by_cases ht : q.1 = t
      · rw [if_pos ht]
        rw [if_pos ht]
      · rw [if_neg ht]
        rw [if_neg ht]
        exact ih

/-- Effect of one directly-labeled sample on a lookup: the entry at `s` is
mapped through the setter exactly when the sample's label is `s` (nonempty),
else untouched. -/
theorem findEntry_applyLabeledSample (f : ℚ → SvcEntry → SvcEntry)
    (m : List (List Char × SvcEntry)) (a : List Char × ℚ) (s : List Char) :
    findEntry s (applyLabeledSample f m a) =
      if a.1 = s ∧ s ≠ [] then (findEntry s m).map (f a.2)
      else findEntry s m := by
  unfold applyLabeledSample
  by_cases hc : a.1 = s ∧ s ≠ []
  · rw [if_pos hc, if_pos (fun h => hc.2 (hc.1.symm.trans h)), hc.1]
    exact findEntry_updateEntry_self (f a.2) s m
  · rw [if_neg hc]
    by_cases hne : a.1 ≠ []
    · rw [if_pos hne]
      have hst : a.1 ≠ s := by
        intro h
        apply hc
        refine ⟨h, ?_⟩
        intro hs
        exact hne (h.trans hs)
      exact findEntry_updateEntry_ne (f a.2) a.1 s hst m
    · rw [if_neg hne]

/-- Effect of one power sample on a lookup: the entry at `s` gets
`power_watts` overwritten exactly when the sample's derived service name is
`s` (nonempty), else untouched. -/
theorem findEntry_applyPowerSample (m : List (List Char × SvcEntry))
    (a : List Char × ℚ) (s : List Char) :
    findEntry s (applyPowerSample m a) =
      if powerServiceName a.1 = s ∧ s ≠ [] then
        (findEntry s m).map (fun e => { e with power_watts := some a.2 })
      else findEntry s m := by
  unfold applyPowerSample
  by_cases hc : powerServiceName a.1 = s ∧ s ≠ []
  · rw [if_pos hc]
    rw [if_pos (fun h => hc.2 (hc.1.symm.trans h))]
    rw [hc.1]
    exact findEntry_updateEntry_self _ s m
  · rw [if_neg hc]
    by_cases hne : powerServiceName a.1 ≠ []
    · rw [if_pos hne]
      have hst : powerServiceName a.1 ≠ s := by
        intro h
        apply hc
        refine ⟨h, ?_⟩
        intro hs
        exact hne (h.trans hs)
      exact findEntry_updateEntry_ne _ _ s hst m
    · rw [if_neg hne]

/-- A directly-labeled fold maps the entry at `s` through its overwrite
accumulator. -/
theorem findEntry_labeledFold (f : ℚ → SvcEntry → SvcEntry)
    (l : List (List Char × ℚ)) :
    ∀ (m : List (List Char × SvcEntry)) (s : List Char),
      findEntry s (l.foldl (applyLabeledSample f) m) =
        (findEntry s m).map (labeledAccum f l s) := by
  induction l with
  | nil =>
    intro m s
    rw [List.foldl_nil]
    cases findEntry s m <;> rfl
  | cons a l ih =>
    intro m s
    rw [List.foldl_cons, ih, findEntry_applyLabeledSample]
    by_cases hc : a.1 = s ∧ s ≠ []
    · rw [if_pos hc]
      cases findEntry s m with
      | none => rfl
      | some e =>
        simp only [Option.map_some']
        unfold labeledAccum
        rw [List.foldl_cons, if_pos hc]
    · rw [if_neg hc]
      cases findEntry s m with
      | none => rfl
      | some e =>
        simp only [Option.map_some']
        unfold labeledAccum
        rw [List.foldl_cons, if_neg hc]

/-- The power fold maps the entry at `s` to the value of the last matching
power sample (keeping the prior value when none matches). -/
theorem findEntry_powerFold (pwd : List (List Char × ℚ)) :
    ∀ (m : List (List Char × SvcEntry)) (s : List Char),
      findEntry s (pwd.foldl applyPowerSample m) =
        (findEntry s m).map
          (fun e => { e with
            power_watts := lastPowerFrom pwd s e.power_watts }) := by
  induction pwd with
  | nil =>
    intro m s
    rw [List.foldl_nil]
    cases findEntry s m <;> rfl
  | cons a pwd ih =>
    intro m s
    rw [List.foldl_cons, ih, findEntry_applyPowerSample]
    by_cases hc : powerServiceName a.1 = s ∧ s ≠ []
    · rw [if_pos hc]
      cases findEntry s m with
      | none => rfl
      | some e =>
        simp only [Option.map_some']
        unfold lastPowerFrom
        rw [List.foldl_cons, if_pos hc]
    · rw [if_neg hc]
      cases findEntry s m with
      | none => rfl
      | some e =>
        simp only [Option.map_some']
        unfold lastPowerFrom
        rw [List.foldl_cons, if_neg hc]

/-- A labeled overwrite accumulator whose setter leaves `power_watts` alone
leaves `power_watts` alone. -/
theorem labeledAccum_keeps_power (f : ℚ → SvcEntry → SvcEntry)
    (hf : ∀ v e, (f v e).power_watts = e.power_watts)
    (l : List (List Char × ℚ)) (s : List Char) :
    ∀ e : SvcEntry, (labeledAccum f l s e).power_watts = e.power_watts := by
  induction l with
  | nil => intro e; rfl
  | cons a l ih =>
    intro e
    unfold labeledAccum
    rw [List.foldl_cons]
    by_cases hc : a.1 = s ∧ s ≠ []
    · rw [if_pos hc]
      exact (ih (f a.2 e)).trans (hf a.2 e)
    · rw [if_neg hc]
      exact ih e

/-- C6 counterexample: with one replica sample for `s1` and two power
samples whose pod labels `s1-a` and `s1-b` both derive service `s1`, the
stored power is `-5`, the value of the *last* sample — not the sum `2` of
the positive values; the negative value is not excluded and no
operating-mode label takes part at all. The claimed semantics (sum of the
positive, "dynamic"-mode samples) would store `2`. -/
theorem power_sum_counterexample :
    get_service_metrics (some [((['s', '1'] : List Char), (2 : ℤ))]) none none
        (some [((['s', '1', '-', 'a'] : List Char), (2 : ℚ)),
          ((['s', '1', '-', 'b'] : List Char), (-5 : ℚ))]) none =
      [(['s', '1'],
        { replicas := some 2
          latency_p95_ms := none
          latency_p99_ms := none
          power_watts := some (-5)
          rps := none })] := by
  decide

/-- C6 amended: the service identifier of a power sample is derived from
the pod label by taking the segment before the first `-` (empty or
unmatched names update nothing, and only keys already present — those of
the `s[0-9]+`-filtered replica result — can be updated); and when several
power samples derive the same service, each assignment overwrites the
previous one, so the merged map stores the value of the last matching
sample — not a sum, with no operating-mode filter and no exclusion of
non-positive values. -/
theorem power_signal_last_write
    (replicaData : Option (List (List Char × ℤ)))
    (p95Data p99Data powerData rpsData : Option (List (List Char × ℚ)))
    (s : List Char) (e : SvcEntry)
    (h : findEntry s (get_service_metrics replicaData p95Data p99Data
      powerData rpsData) = some e) :
    e.power_watts = lastPowerVal (powerData.getD []) s := by
  unfold get_service_metrics at h
  rw [findEntry_labeledFold] at h
  rcases Option.map_eq_some'.1 h with ⟨e3, h3, he⟩
  rw [findEntry_powerFold] at h3
  rcases Option.map_eq_some'.1 h3 with ⟨e2, h2, he3⟩
  rw [findEntry_labeledFold] at h2
  rcases Option.map_eq_some'.1 h2 with ⟨e1, h1, he2⟩
  rw [findEntry_labeledFold] at h1
  rcases Option.map_eq_some'.1 h1 with ⟨e0, h0, he1⟩
  have hpow_e : e.power_watts = e3.power_watts := by
    rw [← he]
    exact labeledAccum_keeps_power (fun v e' => { e' with rps := some v })
      (fun v e' => rfl) (rpsData.getD []) s e3
  have hpow_e3 : e3.power_watts =
      lastPowerFrom (powerData.getD []) s e2.power_watts := by
    rw [← he3]
  have hpow_e2 : e2.power_watts = e0.power_watts := by
    rw [← he2]
    rw [labeledAccum_keeps_power (fun v e' => { e' with latency_p99_ms := some v })
      (fun v e' => rfl) (p99Data.getD []) s e1]
    rw [← he1]
    exact labeledAccum_keeps_power (fun v e' => { e' with latency_p95_ms := some v })
      (fun v e' => rfl) (p95Data.getD []) s e0
  have h0mem := findEntry_some_mem s _ e0 h0
  have h0none := (replicaFold_signals_none (replicaData.getD []) []
    (fun p hp => absurd hp (List.not_mem_nil p)) (s, e0) h0mem).2.2.1
  rw [hpow_e, hpow_e3, hpow_e2, h0none]
  rfl

/-- Witness for C6 (amended) at the counterexample input: the stored power
for `s1` is the last matching sample's value. -/
theorem power_signal_last_write_witness :
    ({ replicas := some 2
       latency_p95_ms := none
       latency_p99_ms := none
       power_watts := some (-5)
       rps := none } : SvcEntry).power_watts =
      lastPowerVal
        ((some [((['s', '1', '-', 'a'] : List Char), (2 : ℚ)),
          ((['s', '1', '-', 'b'] : List Char), (-5 : ℚ))]).getD [])
        ['s', '1'] :=
  power_signal_last_write (some [(['s', '1'], 2)]) none none
    (some [(['s', '1', '-', 'a'], 2), (['s', '1', '-', 'b'], -5)]) none
    ['s', '1']
    { replicas := some 2
      latency_p95_ms := none
      latency_p99_ms := none
      power_watts := some (-5)
      rps := none }
    (by decide)

end EnergyMonitoring
